import Mathlib

/-!
# Verification of the filesMind launcher (src/src-tauri/src/main.rs)

Shallow embedding of the launcher's core logic:

* the perf session manager (`perf_begin`, `perf_end`, `ensure_caffeinate_running`,
  `stop_caffeinate`) with its shared state `MacPerfInner`;
* the thermal text parsing (`extract_int_from_key`) and classification
  (`infer_thermal_level`);
* the readiness-probe backoff delay sequence of `wait_for_backend_ready`;
* the sidecar path resolution (`resolve_workspace_root`, `find_sidecar_path`).

External effects (lock acquisition outcome, OS process spawn outcome, the
filesystem, environment variables) are passed in as explicit oracle parameters,
so every operation is a pure function of its inputs.  We model the macOS build
(`cfg(target_os = "macos")`), where the caffeinate wake-lock code is compiled
in.  Rust `u64` counters are `Nat` with explicit saturation at `2 ^ 64 - 1`;
Rust `i32` values are `Int`.  Unicode lowercasing is modelled on the ASCII
range, which covers every key and phrase the program compares.
-/

set_option autoImplicit false

namespace FilesMind

/-- Largest value of a Rust `u64`; `saturating_add` clamps here. -/
def U64_MAX : Nat := 2 ^ 64 - 1

/-- Rust `u64::saturating_add(1)` (non-wrapping increment). -/
def u64_saturating_add_one (n : Nat) : Nat := min (n + 1) U64_MAX

/-! ## Perf session manager state (struct `MacPerfInner`, main.rs lines 24-38) -/

/-- The state behind the perf mutex: `next_token: u64`,
`active_tokens: HashSet<u64>`, and `caffeinate_child: Option<Child>` modelled
as a liveness flag (whether the wake-lock child handle is present). -/
structure MacPerfInner where
  next_token : Nat
  active_tokens : Finset Nat
  caffeinate_child : Bool
deriving DecidableEq

/-- Rust `MacPerfInner::default()` (main.rs lines 30-38): counter starts at 1,
empty active set, no caffeinate child. -/
def MacPerfInner.default : MacPerfInner :=
  { next_token := 1, active_tokens := ∅, caffeinate_child := false }

/-- The payload struct `PerfSessionPayload` (main.rs lines 59-67). -/
structure PerfSessionPayload where
  token : Nat
  active : Bool
  active_tokens : Nat
  caffeinate_active : Bool
  message : String
deriving DecidableEq

/-- Function `ensure_caffeinate_running` (main.rs lines 256-268), macOS build: spawns
caffeinate only when no child handle is present.  `spawnOk` is the oracle for
whether the OS spawn succeeds; when the child already runs, no spawn is
attempted and the call cannot fail.  The error string is the `anyhow` context
attached at line 263. -/
def ensure_caffeinate_running (spawnOk : Bool) (s : MacPerfInner) :
    Except String MacPerfInner :=
  if s.caffeinate_child then Except.ok s
  else if spawnOk then Except.ok { s with caffeinate_child := true }
  else Except.error "failed to spawn caffeinate"

/-- Function `stop_caffeinate` (main.rs lines 270-274): takes and kills the child,
leaving no handle. -/
def stop_caffeinate (s : MacPerfInner) : MacPerfInner :=
  { s with caffeinate_child := false }

/-- Command `perf_begin` (main.rs lines 276-319).  `lockOk` is the oracle for the
mutex acquisition (false = poisoned lock); `spawnOk` for the caffeinate spawn.
Returns the response payload and the state left behind the mutex. -/
def perf_begin (reason : Option String) (lockOk spawnOk : Bool)
    (s : MacPerfInner) : PerfSessionPayload × MacPerfInner :=
  let reason_text := reason.getD "unspecified"
  if lockOk then
    let token := s.next_token
    let s1 : MacPerfInner :=
      { s with
        next_token := u64_saturating_add_one s.next_token
        active_tokens := insert token s.active_tokens }
    match ensure_caffeinate_running spawnOk s1 with
    | Except.error err =>
      let s2 : MacPerfInner :=
        { s1 with active_tokens := s1.active_tokens.erase token }
      ({ token := 0
         active := false
         active_tokens := s2.active_tokens.card
         caffeinate_active := s2.caffeinate_child
         message := "perf begin failed: " ++ err }, s2)
    | Except.ok s2 =>
      ({ token := token
         active := true
         active_tokens := s2.active_tokens.card
         caffeinate_active := s2.caffeinate_child
         message := "perf session started (" ++ reason_text ++ ")" }, s2)
  else
    ({ token := 0
       active := false
       active_tokens := 0
       caffeinate_active := false
       message := "perf lock poisoned" }, s)

/-- Command `perf_end` (main.rs lines 321-352).  `lockOk` is the oracle for the mutex
acquisition.  Removes the token if present, stops caffeinate when the set
becomes empty, and reports the resulting counts. -/
def perf_end (token : Nat) (lockOk : Bool) (s : MacPerfInner) :
    PerfSessionPayload × MacPerfInner :=
  if lockOk then
    let removed := token ∈ s.active_tokens
    let s1 : MacPerfInner :=
      { s with active_tokens := s.active_tokens.erase token }
    let s2 : MacPerfInner :=
      if s1.active_tokens = ∅ then stop_caffeinate s1 else s1
    ({ token := token
       active := decide (s2.active_tokens ≠ ∅)
       active_tokens := s2.active_tokens.card
       caffeinate_active := s2.caffeinate_child
       message :=
         if removed then "perf session ended"
         else "perf session token not found" }, s2)
  else
    ({ token := token
       active := false
       active_tokens := 0
       caffeinate_active := false
       message := "perf lock poisoned" }, s)

/-- One invocation of a perf command, together with its external oracles. -/
inductive PerfOp where
  | beginOp (reason : Option String) (lockOk spawnOk : Bool)
  | endOp (token : Nat) (lockOk : Bool)


/-- The state transition of one perf command (the payload is discarded). -/
def applyPerfOp (s : MacPerfInner) (op : PerfOp) : MacPerfInner :=
  match op with
  | PerfOp.beginOp reason lockOk spawnOk => (perf_begin reason lockOk spawnOk s).2
  | PerfOp.endOp token lockOk => (perf_end token lockOk s).2

/-- Run a sequence of perf commands from the initial state. -/
def runPerfOps (ops : List PerfOp) : MacPerfInner :=
  ops.foldl applyPerfOp MacPerfInner.default

/-- The wake-lock invariant (spec section 3): the caffeinate child handle is
present iff the active-token set is non-empty. -/
def CaffInvariant (s : MacPerfInner) : Prop :=
  s.caffeinate_child = true ↔ s.active_tokens ≠ ∅

instance (s : MacPerfInner) : Decidable (CaffInvariant s) := by
  unfold CaffInvariant; infer_instance

/-- The token-sentinel invariant: the counter never falls below 1 and token 0
is never a member of the active set. -/
def TokenInvariant (s : MacPerfInner) : Prop :=
  1 ≤ s.next_token ∧ 0 ∉ s.active_tokens

instance (s : MacPerfInner) : Decidable (TokenInvariant s) := by
  unfold TokenInvariant; infer_instance

/-! ## Text utilities shared by the power-state snapshot parsing -/

/-- Rust `char::to_lowercase` restricted to the ASCII range (the only range
the program's keys and phrases use). -/
def lowerChar (c : Char) : Char :=
  if 'A' ≤ c ∧ c ≤ 'Z' then Char.ofNat (c.toNat + 32) else c

/-- Rust `str::to_lowercase` on a character list (ASCII range). -/
def lowerStr (l : List Char) : List Char := l.map lowerChar

/-- Whether `l` begins with `p` (helper for substring containment). -/
def listStartsWith : List Char → List Char → Bool
  | _, [] => true
  | [], _ :: _ => false
  | a :: as, b :: bs => a == b && listStartsWith as bs

/-- Rust `str::contains(&str)`: `needle` occurs as a contiguous substring of
the second argument. -/
def containsSeq (needle : List Char) : List Char → Bool
  | [] => needle.isEmpty
  | c :: rest => listStartsWith (c :: rest) needle || containsSeq needle rest

/-- Split a character list at every occurrence of a separator character,
keeping empty pieces (the splitting underneath `str::lines` and
`str::split`). -/
def splitOnChar (sep : Char) : List Char → List (List Char)
  | [] => [[]]
  | c :: rest =>
    match splitOnChar sep rest with
    | [] => [[]]
    | h :: t => if c = sep then [] :: h :: t else (c :: h) :: t

/-- Remove one trailing carriage return, as Rust `str::lines` does per line. -/
def stripCR (l : List Char) : List Char :=
  if l.getLast? = some '\r' then l.dropLast else l

/-- Rust `str::lines`: split at `\n` without a trailing empty line, stripping
one trailing `\r` from each line. -/
def rustLines (s : List Char) : List (List Char) :=
  if s = [] then []
  else
    let parts := splitOnChar '\n' s
    let parts := if parts.getLast? = some [] then parts.dropLast else parts
    parts.map stripCR

/-! ## `extract_int_from_key` (main.rs lines 112-136) -/

/-- The digit-collecting scan of `extract_int_from_key` (main.rs lines
118-127): walk the original line left to right, collecting ASCII digits and at
most one leading minus sign before any digit has been seen, stopping once a
digit run ends after having started.  The accumulator is kept reversed. -/
def scan_line_number : List Char → List Char → Bool → List Char
  | [], acc, _ => acc.reverse
  | c :: rest, acc, seenDigit =>
    if c.isDigit || (c == '-' && !seenDigit && acc.isEmpty) then
      scan_line_number rest (c :: acc) (seenDigit || c.isDigit)
    else if seenDigit then acc.reverse
    else scan_line_number rest acc seenDigit

/-- Numeric value of a digit run. -/
def digitsVal (l : List Char) : Nat :=
  l.foldl (fun n c => n * 10 + (c.toNat - 48)) 0

/-- Rust `str::parse::<i32>()` on an optional-sign-then-digits string (the
only shapes `scan_line_number` can emit): fails on an empty string, a bare
sign, a non-digit, or an out-of-range value. -/
def parse_i32 (l : List Char) : Option Int :=
  match l with
  | [] => none
  | '-' :: rest =>
    if rest ≠ [] ∧ rest.all Char.isDigit then
      let v : Int := -(digitsVal rest : Int)
      if -(2 ^ 31) ≤ v then some v else none
    else none
  | '+' :: rest =>
    if rest ≠ [] ∧ rest.all Char.isDigit then
      let v : Int := (digitsVal rest : Int)
      if v ≤ 2 ^ 31 - 1 then some v else none
    else none
  | _ :: _ =>
    if l.all Char.isDigit then
      let v : Int := (digitsVal l : Int)
      if v ≤ 2 ^ 31 - 1 then some v else none
    else none

/-- The per-line body of the `extract_int_from_key` loop: skip a line whose
lowercase form does not contain the lowercased key; otherwise scan the
original line for a number and parse it, yielding `none` (continue) when the
scan found nothing or the parse failed. -/
def extract_line_value (key : String) (line : List Char) : Option Int :=
  if containsSeq (lowerStr key.toList) (lowerStr line) then
    let number := scan_line_number line [] false
    if number.isEmpty then none
    else parse_i32 number
  else none

/-- Function `extract_int_from_key` (main.rs lines 112-136): the first value any line
yields, in line order. -/
def extract_int_from_key (output key : String) : Option Int :=
  (rustLines output.toList).findSome? (extract_line_value key)

/-! ## `infer_thermal_level` (main.rs lines 138-176) -/

/-- Function `infer_thermal_level` (main.rs lines 138-176): a raw thermal level alone
decides the class when present; otherwise the minimum of the limit
percentages present; otherwise the "no thermal warning" text check. -/
def infer_thermal_level (thermal_level_raw cpu_speed_limit scheduler_limit :
    Option Int) (therm_output : String) : String :=
  match thermal_level_raw with
  | some level =>
    if 3 ≤ level then "critical"
    else if level = 2 then "serious"
    else if level = 1 then "fair"
    else "nominal"
  | none =>
    let min_limit : Option Int :=
      match cpu_speed_limit, scheduler_limit with
      | some cpu, some sched => some (min cpu sched)
      | some cpu, none => some cpu
      | none, some sched => some sched
      | none, none => none
    match min_limit with
    | some limit =>
      if limit ≤ 50 then "critical"
      else if limit ≤ 75 then "serious"
      else if limit ≤ 90 then "fair"
      else "nominal"
    | none =>
      if containsSeq "no thermal warning".toList (lowerStr therm_output.toList)
      then "nominal"
      else "unknown"

/-! ## Readiness-probe backoff (`wait_for_backend_ready`, main.rs lines
483-511) -/

/-- The duration in milliseconds of the `n`-th sleep (0-indexed) between poll
attempts of `wait_for_backend_ready`: the delay starts at 150ms (line 489) and
after each sleep is doubled and capped at 2000ms (line 509). -/
def backoff_delay_ms : Nat → Nat
  | 0 => 150
  | n + 1 => min (backoff_delay_ms n * 2) 2000

/-! ## Sidecar path resolution (`resolve_workspace_root`, `find_sidecar_path`,
main.rs lines 381-440)

Paths are modelled as component lists; `Path::join` appends a component and
`Path::parent().unwrap_or(self)` is `List.dropLast` (dropping the last
component; for an empty list it returns the empty list, matching the
`unwrap_or` fallback at a root path).  The ambient process environment —
the override variable, the build mode, the working directory, the executable
and resource directories, the target OS and which paths exist on disk — is an
explicit record of oracles. -/

/-- Rust `str::trim` on the ASCII whitespace the program can meet. -/
def trimChars (l : List Char) : List Char :=
  (l.dropWhile Char.isWhitespace).reverse.dropWhile Char.isWhitespace |>.reverse

/-- Rust `PathBuf::from(string)`: split on the path separator. -/
def strToPath (s : List Char) : List String :=
  (splitOnChar '/' s).map String.mk

/-- Render a path for use as a command-line argument
(`Path::to_string_lossy`). -/
def pathToStr (p : List String) : String :=
  String.intercalate "/" p

/-- The ambient environment `find_sidecar_path` consults: the
`FILESMIND_SIDECAR_PATH` variable (`none` when unset), `cfg!(debug_assertions)`,
`std::env::current_dir()`, a directory-existence oracle for the filesystem,
the directory containing `std::env::current_exe()` (`none` when the exe path
or its parent is unavailable), the Tauri resource directory (`none` when
unresolvable), and whether the target OS is Windows. -/
structure SidecarEnv where
  sidecar_override : Option String
  debug_mode : Bool
  cwd : List String
  fs_exists : List String → Bool
  exe_dir : Option (List String)
  resource_dir : Option (List String)
  target_windows : Bool

/-- Function `resolve_workspace_root` (main.rs lines 381-393): the current directory if
it holds a `backend` subdirectory, else its parent if that does, else the
current directory. -/
def resolve_workspace_root (env : SidecarEnv) : List String :=
  if env.fs_exists (env.cwd ++ ["backend"]) then env.cwd
  else
    let parent := env.cwd.dropLast
    if env.fs_exists (parent ++ ["backend"]) then parent
    else env.cwd

/-- The packaged-mode binary name (main.rs lines 409-413). -/
def binary_name (windows : Bool) : String :=
  if windows then "filesmind-backend.exe" else "filesmind-backend"

/-- The packaged-mode candidate list (main.rs lines 415-424), in probe order:
next to the current executable, then the resource directory's `binaries`
subfolder, then the resource directory itself. -/
def sidecar_candidates (env : SidecarEnv) : List (List String) :=
  (match env.exe_dir with
   | some d => [d ++ [binary_name env.target_windows]]
   | none => []) ++
  (match env.resource_dir with
   | some rd =>
     [rd ++ ["binaries", binary_name env.target_windows],
      rd ++ [binary_name env.target_windows]]
   | none => [])

/-- Function `find_sidecar_path` once the override variable has not short-circuited
(main.rs lines 403-439): development mode yields the interpreter on the
backend entry-point script under the workspace root; packaged mode yields the
first existing candidate, or the full candidate list as the
`SidecarNotFound` error. -/
def find_sidecar_no_override (env : SidecarEnv) :
    Except (List (List String)) (List String × List String) :=
  if env.debug_mode then
    let workspace_root := resolve_workspace_root env
    Except.ok (["python"],
      [pathToStr (workspace_root ++ ["backend", "desktop_server.py"])])
  else
    match (sidecar_candidates env).find? env.fs_exists with
    | some candidate => Except.ok (candidate, [])
    | none => Except.error (sidecar_candidates env)

/-- Function `find_sidecar_path` (main.rs lines 395-440): a non-empty trimmed override
wins outright with empty arguments; otherwise resolution continues with the
development / packaged logic. -/
def find_sidecar_path (env : SidecarEnv) :
    Except (List (List String)) (List String × List String) :=
  match env.sidecar_override with
  | some path =>
    let trimmed := trimChars path.toList
    if trimmed ≠ [] then Except.ok (strToPath trimmed, [])
    else find_sidecar_no_override env
  | none => find_sidecar_no_override env

/-- Whether the override variable is unset or blank, so that resolution falls
through to the development / packaged logic. -/
def OverrideMiss (env : SidecarEnv) : Prop :=
  env.sidecar_override = none ∨
    ∃ p, env.sidecar_override = some p ∧ trimChars p.toList = []

/-! ## Helper lemmas -/

theorem list_findSome_none {α β : Type} (f : α → Option β) :
    ∀ l : List α, (∀ x ∈ l, f x = none) → l.findSome? f = none := by
  intro l h
  induction l with
  | nil => rfl
  | cons a rest ih =>
    have ha : f a = none := h a (List.mem_cons_self a rest)
    have hrest : rest.findSome? f = none :=
      ih fun x hx => h x (List.mem_cons_of_mem a hx)
    simp [List.findSome?, ha, hrest]

theorem list_findSome_first {α β : Type} (f : α → Option β) (v : β) :
    ∀ (pre post : List α) (x : α), (∀ y ∈ pre, f y = none) → f x = some v →
      (pre ++ x :: post).findSome? f = some v := by
  intro pre
  induction pre with
  | nil =>
    intro post x _ hx
    simp [List.findSome?, hx]
  | cons a rest ih =>
    intro post x h hx
    have ha : f a = none := h a (List.mem_cons_self a rest)
    have := ih post x (fun y hy => h y (List.mem_cons_of_mem a hy)) hx
    simp [List.findSome?, ha, this]

theorem list_find_first {α : Type} (p : α → Bool) :
    ∀ (pre post : List α) (c : α), (∀ x ∈ pre, p x = false) → p c = true →
      (pre ++ c :: post).find? p = some c := by
  intro pre
  induction pre with
  | nil =>
    intro post c _ hc
    simp [List.find?, hc]
  | cons a rest ih =>
    intro post c h hc
    have ha : p a = false := h a (List.mem_cons_self a rest)
    have := ih post c (fun x hx => h x (List.mem_cons_of_mem a hx)) hc
    simp [List.find?, ha, this]

theorem perf_begin_success_state (reason : Option String) (spawnOk : Bool)
    (s : MacPerfInner) (h : s.caffeinate_child = true ∨ spawnOk = true) :
    (perf_begin reason true spawnOk s).2 =
      { next_token := u64_saturating_add_one s.next_token
        active_tokens := insert s.next_token s.active_tokens
        caffeinate_child := true } := by
  rcases h with hc | hsp
  · simp [perf_begin, ensure_caffeinate_running, hc]
  · subst hsp
    by_cases hc : s.caffeinate_child = true <;>
      simp [perf_begin, ensure_caffeinate_running, hc]

theorem perf_begin_success_payload (reason : Option String) (spawnOk : Bool)
    (s : MacPerfInner) (h : s.caffeinate_child = true ∨ spawnOk = true) :
    (perf_begin reason true spawnOk s).1 =
      { token := s.next_token
        active := true
        active_tokens := (insert s.next_token s.active_tokens).card
        caffeinate_active := true
        message :=
          "perf session started (" ++ reason.getD "unspecified" ++ ")" } := by
  rcases h with hc | hsp
  · simp [perf_begin, ensure_caffeinate_running, hc]
  · subst hsp
    by_cases hc : s.caffeinate_child = true <;>
      simp [perf_begin, ensure_caffeinate_running, hc]

theorem perf_begin_fail_state (reason : Option String) (s : MacPerfInner)
    (hc : s.caffeinate_child = false) :
    (perf_begin reason true false s).2 =
      { next_token := u64_saturating_add_one s.next_token
        active_tokens :=
          (insert s.next_token s.active_tokens).erase s.next_token
        caffeinate_child := false } := by
  simp [perf_begin, ensure_caffeinate_running, hc]

theorem perf_begin_fail_payload (reason : Option String) (s : MacPerfInner)
    (hc : s.caffeinate_child = false) :
    (perf_begin reason true false s).1 =
      { token := 0
        active := false
        active_tokens :=
          ((insert s.next_token s.active_tokens).erase s.next_token).card
        caffeinate_active := false
        message := "perf begin failed: failed to spawn caffeinate" } := by
  simp [perf_begin, ensure_caffeinate_running, hc]

theorem perf_end_state_empty (token : Nat) (s : MacPerfInner)
    (he : s.active_tokens.erase token = ∅) :
    (perf_end token true s).2 =
      { next_token := s.next_token
        active_tokens := s.active_tokens.erase token
        caffeinate_child := false } := by
  simp [perf_end, he, stop_caffeinate]

theorem perf_end_state_nonempty (token : Nat) (s : MacPerfInner)
    (he : s.active_tokens.erase token ≠ ∅) :
    (perf_end token true s).2 =
      { s with active_tokens := s.active_tokens.erase token } := by
  simp [perf_end, he]

theorem caffInvariant_applyPerfOp {s : MacPerfInner} (op : PerfOp)
    (h : CaffInvariant s) : CaffInvariant (applyPerfOp s op) := by
  unfold CaffInvariant at h ⊢
  cases op with
  | beginOp reason lockOk spawnOk =>
    cases lockOk with
    | false => simpa [applyPerfOp, perf_begin] using h
    | true =>
      by_cases hc : s.caffeinate_child = true
      · simp [applyPerfOp, perf_begin, ensure_caffeinate_running, hc,
          Finset.insert_ne_empty]
      · cases spawnOk with
        | true =>
          simp [applyPerfOp, perf_begin, ensure_caffeinate_running, hc,
            Finset.insert_ne_empty]
        | false =>
          have hs : s.active_tokens = ∅ := by
            by_contra hne
            exact hc (h.mpr hne)
          simp [applyPerfOp, perf_begin, ensure_caffeinate_running, hc, hs,
            Finset.erase_insert (Finset.not_mem_empty s.next_token)]
  | endOp token lockOk =>
    cases lockOk with
    | false => simpa [applyPerfOp, perf_end] using h
    | true =>
      by_cases he : s.active_tokens.erase token = ∅
      · simp [applyPerfOp, perf_end, he, stop_caffeinate]
      · have hne : s.active_tokens ≠ ∅ := by
          intro h0
          exact he (by simp [h0])
        simp [applyPerfOp, perf_end, he, stop_caffeinate, h.mpr hne]

theorem tokenInvariant_applyPerfOp {s : MacPerfInner} (op : PerfOp)
    (h : TokenInvariant s) : TokenInvariant (applyPerfOp s op) := by
  obtain ⟨h1, h2⟩ := h
  have hzero : (0 : Nat) ∉ insert s.next_token s.active_tokens := by
    simp only [Finset.mem_insert]
    rintro (h0 | h0)
    · omega
    · exact h2 h0
  have hsat : 1 ≤ u64_saturating_add_one s.next_token := by
    unfold u64_saturating_add_one U64_MAX
    exact le_min (by omega) (by norm_num)
  cases op with
  | beginOp reason lockOk spawnOk =>
    cases lockOk with
    | false => exact ⟨h1, h2⟩
    | true =>
      by_cases hc : s.caffeinate_child = true
      · show TokenInvariant (perf_begin reason true spawnOk s).2
        rw [perf_begin_success_state reason spawnOk s (Or.inl hc)]
        exact ⟨hsat, hzero⟩
      · replace hc : s.caffeinate_child = false := by
          cases hcc : s.caffeinate_child
          · rfl
          · exact absurd hcc hc
        cases spawnOk with
        | true =>
          show TokenInvariant (perf_begin reason true true s).2
          rw [perf_begin_success_state reason true s (Or.inr rfl)]
          exact ⟨hsat, hzero⟩
        | false =>
          show TokenInvariant (perf_begin reason true false s).2
          rw [perf_begin_fail_state reason s hc]
          exact ⟨hsat, fun hm => hzero (Finset.mem_of_mem_erase hm)⟩
  | endOp token lockOk =>
    cases lockOk with
    | false => exact ⟨h1, h2⟩
    | true =>
      by_cases he : (s.active_tokens.erase token) = ∅
      · show TokenInvariant (perf_end token true s).2
        rw [perf_end_state_empty token s he]
        exact ⟨h1, fun hm => h2 (Finset.mem_of_mem_erase hm)⟩
      · show TokenInvariant (perf_end token true s).2
        rw [perf_end_state_nonempty token s he]
        exact ⟨h1, fun hm => h2 (Finset.mem_of_mem_erase hm)⟩

/-! ## Claims -/

/-- C1: starting from the initial state (empty active set, no wake-lock
child) and applying any sequence of `perf_begin` / `perf_end` operations, the
caffeinate child handle is present iff the active-token set is non-empty, and
each single operation preserves this invariant. -/
theorem perf_caffeinate_invariant_claim :
    (∀ ops : List PerfOp, CaffInvariant (runPerfOps ops)) ∧
    (∀ (s : MacPerfInner) (op : PerfOp), CaffInvariant s →
      CaffInvariant (applyPerfOp s op)) := by
  constructor
  · intro ops
    have hgen : ∀ s : MacPerfInner, CaffInvariant s →
        CaffInvariant (ops.foldl applyPerfOp s) := by
      induction ops with
      | nil => intro s hs; exact hs
      | cons op rest ih =>
        intro s hs
        exact ih _ (caffInvariant_applyPerfOp op hs)
    exact hgen _ (by decide)
  · intro s op hs
    exact caffInvariant_applyPerfOp op hs

/-- Witness for C1: the invariant survives a concrete successful begin on the
initial state. -/
theorem perf_caffeinate_invariant_claim_witness :
    CaffInvariant (applyPerfOp MacPerfInner.default
      (PerfOp.beginOp none true true)) :=
  perf_caffeinate_invariant_claim.2 MacPerfInner.default
    (PerfOp.beginOp none true true) (by decide)

/-- C10: the counter starts at 1 and saturates rather than wrapping; in every
reachable state the counter is at least 1 and token 0 is never in the active
set; a successful `perf_begin` returns a token at least 1; both failure
payloads of `perf_begin` (poisoned lock, caffeinate spawn failure) carry
token 0. -/
theorem perf_token_sentinel_claim :
    MacPerfInner.default.next_token = 1
  ∧ (∀ ops : List PerfOp, TokenInvariant (runPerfOps ops))
  ∧ (∀ (reason : Option String) (lockOk spawnOk : Bool) (s : MacPerfInner),
      TokenInvariant s →
      (perf_begin reason lockOk spawnOk s).1.active = true →
      1 ≤ (perf_begin reason lockOk spawnOk s).1.token)
  ∧ (∀ (reason : Option String) (spawnOk : Bool) (s : MacPerfInner),
      (perf_begin reason false spawnOk s).1.token = 0)
  ∧ (∀ (reason : Option String) (s : MacPerfInner),
      s.caffeinate_child = false →
      (perf_begin reason true false s).1.token = 0)
  ∧ (∀ (reason : Option String) (spawnOk : Bool) (s : MacPerfInner),
      (perf_begin reason true spawnOk s).2.next_token =
        min (s.next_token + 1) U64_MAX) := by
  refine ⟨rfl, ?_, ?_, ?_, ?_, ?_⟩
  · intro ops
    have hgen : ∀ s : MacPerfInner, TokenInvariant s →
        TokenInvariant (ops.foldl applyPerfOp s) := by
      induction ops with
      | nil => intro s hs; exact hs
      | cons op rest ih =>
        intro s hs
        exact ih _ (tokenInvariant_applyPerfOp op hs)
    exact hgen _ (by decide)
  · intro reason lockOk spawnOk s hs hact
    cases lockOk with
    | false => simp [perf_begin] at hact
    | true =>
      by_cases hc : s.caffeinate_child = true
      · simpa [perf_begin, ensure_caffeinate_running, hc] using hs.1
      · cases spawnOk with
        | true =>
          simpa [perf_begin, ensure_caffeinate_running, hc] using hs.1
        | false =>
          simp [perf_begin, ensure_caffeinate_running, hc] at hact
  · intro reason spawnOk s
    rfl
  · intro reason s hc
    simp [perf_begin, ensure_caffeinate_running, hc]
  · intro reason spawnOk s
    by_cases hc : s.caffeinate_child = true
    · simp [perf_begin, ensure_caffeinate_running, hc, u64_saturating_add_one]
    · cases spawnOk with
      | true =>
        simp [perf_begin, ensure_caffeinate_running, hc, u64_saturating_add_one]
      | false =>
        simp [perf_begin, ensure_caffeinate_running, hc, u64_saturating_add_one]

/-- Witness for C10: a concrete successful begin on the initial state yields
token 1 at least 1. -/
theorem perf_token_sentinel_claim_witness :
    1 ≤ (perf_begin none true true MacPerfInner.default).1.token :=
  perf_token_sentinel_claim.2.2.1 none true true MacPerfInner.default
    (by decide) (by decide)

/-- C4: when `perf_begin` acquires the lock but the caffeinate spawn fails
(possible only when no caffeinate child is running), the freshly allocated
token is removed again, so the active set is exactly what it was before the
call, and the payload reports `active = false` with the failure message.  The
wake-lock invariant hypothesis pins the state to a reachable one: a spawn is
attempted only with no caffeinate child, where the invariant forces the
active set to be empty, so the erased token cannot collide with an existing
member. -/
theorem perf_begin_spawn_fail_claim :
    ∀ (reason : Option String) (s : MacPerfInner),
      CaffInvariant s →
      s.caffeinate_child = false →
      (perf_begin reason true false s).2.active_tokens = s.active_tokens ∧
      (perf_begin reason true false s).2.caffeinate_child = false ∧
      (perf_begin reason true false s).1.active = false ∧
      (perf_begin reason true false s).1.token = 0 ∧
      (perf_begin reason true false s).1.message =
        "perf begin failed: failed to spawn caffeinate" := by
  intro reason s hinv hc
  have hs : s.active_tokens = ∅ := by
    by_contra hne
    have := hinv.mpr hne
    rw [hc] at this
    exact Bool.false_ne_true this
  have hmem : s.next_token ∉ s.active_tokens := by
    rw [hs]
    exact Finset.not_mem_empty _
  rw [perf_begin_fail_state reason s hc, perf_begin_fail_payload reason s hc]
  exact ⟨by simp [Finset.erase_insert hmem], rfl, rfl, rfl, rfl⟩

/-- Witness for C4: spawn failure on the initial state. -/
theorem perf_begin_spawn_fail_claim_witness :
    (perf_begin none true false MacPerfInner.default).2.active_tokens =
      MacPerfInner.default.active_tokens ∧
    (perf_begin none true false MacPerfInner.default).1.active = false :=
  ⟨(perf_begin_spawn_fail_claim none MacPerfInner.default (by decide) rfl).1,
   (perf_begin_spawn_fail_claim none MacPerfInner.default (by decide)
      rfl).2.2.1⟩

/-- C5: `perf_end` with a token that is not in the active set leaves the
active set unchanged, reports the count and the `active` flag of that
unchanged set, and replies "perf session token not found" instead of failing;
and when the token was present and its removal empties the set, the caffeinate
child is stopped and released. -/
theorem perf_end_unknown_token_claim :
    ∀ (s : MacPerfInner) (token : Nat),
      (token ∉ s.active_tokens →
        (perf_end token true s).2.active_tokens = s.active_tokens ∧
        (perf_end token true s).1.active_tokens = s.active_tokens.card ∧
        (perf_end token true s).1.active = decide (s.active_tokens ≠ ∅) ∧
        (perf_end token true s).1.message =
          "perf session token not found") ∧
      (token ∈ s.active_tokens → s.active_tokens.erase token = ∅ →
        (perf_end token true s).2.caffeinate_child = false ∧
        (perf_end token true s).1.caffeinate_active = false ∧
        (perf_end token true s).1.active_tokens = 0 ∧
        (perf_end token true s).1.message = "perf session ended") := by
  intro s token
  constructor
  · intro hnot
    have herase : s.active_tokens.erase token = s.active_tokens :=
      Finset.erase_eq_of_not_mem hnot
    by_cases he : s.active_tokens = ∅
    · refine ⟨?_, ?_, ?_, ?_⟩ <;>
        simp [perf_end, stop_caffeinate, herase, he, hnot]
    · refine ⟨?_, ?_, ?_, ?_⟩ <;>
        simp [perf_end, stop_caffeinate, herase, he, hnot]
  · intro hmem hempty
    refine ⟨?_, ?_, ?_, ?_⟩ <;>
      simp [perf_end, stop_caffeinate, hempty, hmem]

/-- Witness for C5: ending an unknown token on the initial state, and ending
the sole active token of a one-session state. -/
theorem perf_end_unknown_token_claim_witness :
    ((perf_end 7 true MacPerfInner.default).2.active_tokens =
        MacPerfInner.default.active_tokens ∧
      (perf_end 7 true MacPerfInner.default).1.message =
        "perf session token not found") ∧
    (perf_end 1 true (perf_begin none true true MacPerfInner.default).2
      ).2.caffeinate_child = false :=
  ⟨⟨((perf_end_unknown_token_claim MacPerfInner.default 7).1 (by decide)).1,
    ((perf_end_unknown_token_claim MacPerfInner.default 7).1 (by decide)).2.2.2⟩,
   ((perf_end_unknown_token_claim
      (perf_begin none true true MacPerfInner.default).2 1).2
      (by decide) (by decide)).1⟩

/-- C6: a poisoned perf lock on either operation is absorbed: the operation
returns a payload with a zero active-token count, `caffeinate_active = false`,
`active = false` and the explanatory message, and the state behind the lock is
left untouched. -/
theorem perf_lock_poisoned_claim :
    ∀ (reason : Option String) (spawnOk : Bool) (s : MacPerfInner) (t : Nat),
      ((perf_begin reason false spawnOk s).2 = s ∧
       (perf_begin reason false spawnOk s).1.token = 0 ∧
       (perf_begin reason false spawnOk s).1.active = false ∧
       (perf_begin reason false spawnOk s).1.active_tokens = 0 ∧
       (perf_begin reason false spawnOk s).1.caffeinate_active = false ∧
       (perf_begin reason false spawnOk s).1.message = "perf lock poisoned") ∧
      ((perf_end t false s).2 = s ∧
       (perf_end t false s).1.active = false ∧
       (perf_end t false s).1.active_tokens = 0 ∧
       (perf_end t false s).1.caffeinate_active = false ∧
       (perf_end t false s).1.message = "perf lock poisoned") :=
  fun _ _ _ _ =>
    ⟨⟨rfl, rfl, rfl, rfl, rfl, rfl⟩, ⟨rfl, rfl, rfl, rfl, rfl⟩⟩

/-- C9 counterexample: with a second session still active, a successful
`perf_begin` followed immediately by `perf_end` with the returned token leaves
one active token and the caffeinate child alive — not a count of 0 and an
inactive wake-lock.  (Trace: begin, begin, end of the second token, from the
initial state.) -/
theorem perf_begin_end_counterexample :
    (perf_begin none true true
        (perf_begin none true true MacPerfInner.default).2).1.active = true ∧
    (perf_end
        (perf_begin none true true
          (perf_begin none true true MacPerfInner.default).2).1.token true
        (perf_begin none true true
          (perf_begin none true true MacPerfInner.default).2).2
      ).1.active_tokens = 1 ∧
    (perf_end
        (perf_begin none true true
          (perf_begin none true true MacPerfInner.default).2).1.token true
        (perf_begin none true true
          (perf_begin none true true MacPerfInner.default).2).2
      ).1.caffeinate_active = true ∧
    (perf_end
        (perf_begin none true true
          (perf_begin none true true MacPerfInner.default).2).1.token true
        (perf_begin none true true
          (perf_begin none true true MacPerfInner.default).2).2
      ).2.caffeinate_child = true := by
  decide

/-- C9 (amended): from a state with no active tokens — in particular the
initial state — a successful `perf_begin` followed immediately by `perf_end`
with the returned token leaves the active-token count at 0 and the wake-lock
inactive. -/
theorem perf_begin_end_claim :
    ∀ (reason : Option String) (spawnOk : Bool) (s : MacPerfInner),
      s.active_tokens = ∅ →
      (perf_begin reason true spawnOk s).1.active = true →
      ((perf_end (perf_begin reason true spawnOk s).1.token true
          (perf_begin reason true spawnOk s).2).1.active_tokens = 0 ∧
       (perf_end (perf_begin reason true spawnOk s).1.token true
          (perf_begin reason true spawnOk s).2).1.caffeinate_active = false ∧
       (perf_end (perf_begin reason true spawnOk s).1.token true
          (perf_begin reason true spawnOk s).2).2.active_tokens = ∅ ∧
       (perf_end (perf_begin reason true spawnOk s).1.token true
          (perf_begin reason true spawnOk s).2).2.caffeinate_child = false)
      := by
  intro reason spawnOk s hempty hact
  have hok : s.caffeinate_child = true ∨ spawnOk = true := by
    by_cases hc : s.caffeinate_child = true
    · exact Or.inl hc
    · replace hc : s.caffeinate_child = false := by
        cases hcc : s.caffeinate_child
        · rfl
        · exact absurd hcc hc
      cases spawnOk with
      | true => exact Or.inr rfl
      | false =>
        rw [perf_begin_fail_payload reason s hc] at hact
        exact absurd hact Bool.false_ne_true
  rw [perf_begin_success_payload reason spawnOk s hok,
    perf_begin_success_state reason spawnOk s hok]
  have herase :
      (insert s.next_token s.active_tokens).erase s.next_token = ∅ := by
    rw [hempty]
    exact Finset.erase_insert (Finset.not_mem_empty _)
  rw [perf_end_state_empty _ _ herase]
  refine ⟨?_, ?_, ?_, rfl⟩
  · simp [perf_end, stop_caffeinate, herase]
  · simp [perf_end, stop_caffeinate, herase]
  · simpa using herase

/-- Witness for C9 (amended): begin then end on the initial state. -/
theorem perf_begin_end_claim_witness :
    (perf_end (perf_begin none true true MacPerfInner.default).1.token true
        (perf_begin none true true MacPerfInner.default).2
      ).1.active_tokens = 0 ∧
    (perf_end (perf_begin none true true MacPerfInner.default).1.token true
        (perf_begin none true true MacPerfInner.default).2
      ).1.caffeinate_active = false ∧
    (perf_end (perf_begin none true true MacPerfInner.default).1.token true
        (perf_begin none true true MacPerfInner.default).2
      ).2.active_tokens = ∅ ∧
    (perf_end (perf_begin none true true MacPerfInner.default).1.token true
        (perf_begin none true true MacPerfInner.default).2
      ).2.caffeinate_child = false :=
  perf_begin_end_claim none true MacPerfInner.default rfl (by decide)

/-- C2: `infer_thermal_level` follows the stated priority order: a raw
thermal level alone decides the class (at least 3 critical, 2 serious, 1
fair, anything else nominal); otherwise the minimum of the limit percentages
present decides (at most 50 critical, 75 serious, 90 fair, else nominal);
otherwise the "no thermal warning" text check decides between nominal and
unknown.  Limit 40 gives critical, 70 serious, 85 fair, 95 nominal, and raw
level 3 gives critical regardless of the limit values. -/
theorem infer_thermal_level_claim :
    (∀ (level : Int) (cpu sched : Option Int) (t : String),
      infer_thermal_level (some level) cpu sched t =
        (if 3 ≤ level then "critical"
         else if level = 2 then "serious"
         else if level = 1 then "fair"
         else "nominal"))
  ∧ (∀ (level : Int) (cpu sched : Option Int) (t : String),
      infer_thermal_level (some level) cpu sched t =
        infer_thermal_level (some level) none none "")
  ∧ (∀ (cpu sched : Int) (t : String),
      infer_thermal_level none (some cpu) (some sched) t =
        (if min cpu sched ≤ 50 then "critical"
         else if min cpu sched ≤ 75 then "serious"
         else if min cpu sched ≤ 90 then "fair"
         else "nominal"))
  ∧ (∀ (cpu : Int) (t : String),
      infer_thermal_level none (some cpu) none t =
        (if cpu ≤ 50 then "critical"
         else if cpu ≤ 75 then "serious"
         else if cpu ≤ 90 then "fair"
         else "nominal"))
  ∧ (∀ (sched : Int) (t : String),
      infer_thermal_level none none (some sched) t =
        (if sched ≤ 50 then "critical"
         else if sched ≤ 75 then "serious"
         else if sched ≤ 90 then "fair"
         else "nominal"))
  ∧ (∀ t : String,
      infer_thermal_level none none none t =
        (if containsSeq "no thermal warning".toList (lowerStr t.toList)
         then "nominal"
         else "unknown"))
  ∧ infer_thermal_level none (some 40) none "" = "critical"
  ∧ infer_thermal_level none (some 70) none "" = "serious"
  ∧ infer_thermal_level none (some 85) none "" = "fair"
  ∧ infer_thermal_level none (some 95) none "" = "nominal"
  ∧ (∀ (cpu sched : Option Int) (t : String),
      infer_thermal_level (some 3) cpu sched t = "critical") := by
  refine ⟨fun _ _ _ _ => rfl, fun _ _ _ _ => rfl, fun _ _ _ => rfl,
    fun _ _ => rfl, fun _ _ => rfl, fun _ => rfl,
    by decide, by decide, by decide, by decide, fun _ _ _ => rfl⟩

/-- C3: `extract_int_from_key` on the line `CPU_Speed_Limit = 45` with key
`cpu_speed_limit` returns 45; when no line's lowercase form contains the
lowercased key it returns nothing; it is the first value any line yields, in
line order, where a line yields the parse of the digit run (with an optional
single leading minus sign) collected left-to-right by the stated scan. -/
theorem extract_int_from_key_claim :
    extract_int_from_key "CPU_Speed_Limit = 45" "cpu_speed_limit" = some 45
  ∧ (∀ output key : String,
      (∀ line ∈ rustLines output.toList,
        containsSeq (lowerStr key.toList) (lowerStr line) = false) →
      extract_int_from_key output key = none)
  ∧ (∀ output key : String,
      extract_int_from_key output key =
        (rustLines output.toList).findSome? (extract_line_value key))
  ∧ (∀ (key : String) (v : Int) (pre post : List (List Char))
        (line : List Char),
      (∀ l ∈ pre, extract_line_value key l = none) →
      extract_line_value key line = some v →
      (pre ++ line :: post).findSome? (extract_line_value key) = some v) := by
  refine ⟨by decide, ?_, fun _ _ => rfl, ?_⟩
  · intro output key h
    unfold extract_int_from_key
    apply list_findSome_none
    intro l hl
    have hfalse := h l hl
    simp only [extract_line_value]
    rw [hfalse]
    simp
  · intro key v pre post line hpre hline
    exact list_findSome_first (extract_line_value key) v pre post line
      hpre hline

/-- Witness for C3: an output with no key-bearing line yields nothing, and
the first line that yields a value wins. -/
theorem extract_int_from_key_claim_witness :
    extract_int_from_key "abc" "cpu_speed_limit" = none ∧
    ([String.toList "x", String.toList "limit 42"].findSome?
        (extract_line_value "limit") = some 42) :=
  ⟨extract_int_from_key_claim.2.1 "abc" "cpu_speed_limit" (by decide),
   extract_int_from_key_claim.2.2.2 "limit" 42 [String.toList "x"] []
     (String.toList "limit 42") (by decide) (by decide)⟩

/-- C7: the sleep durations between successive readiness poll attempts are
exactly 150ms, 300ms, 600ms, 1200ms, and then 2000ms for every later attempt,
never exceeding 2000ms. -/
theorem backoff_sequence_claim :
    backoff_delay_ms 0 = 150 ∧
    backoff_delay_ms 1 = 300 ∧
    backoff_delay_ms 2 = 600 ∧
    backoff_delay_ms 3 = 1200 ∧
    (∀ n, 4 ≤ n → backoff_delay_ms n = 2000) ∧
    (∀ n, backoff_delay_ms n ≤ 2000) := by
  refine ⟨rfl, by decide, by decide, by decide, ?_, ?_⟩
  · intro n hn
    induction n, hn using Nat.le_induction with
    | base => decide
    | succ m hm ih =>
      show min (backoff_delay_ms m * 2) 2000 = 2000
      rw [ih]
      decide
  · intro n
    cases n with
    | zero => decide
    | succ m => exact min_le_right _ _

/-- Witness for C7: the fifth and later sleeps are 2000ms. -/
theorem backoff_sequence_claim_witness :
    backoff_delay_ms 6 = 2000 ∧ backoff_delay_ms 6 ≤ 2000 :=
  ⟨backoff_sequence_claim.2.2.2.2.1 6 (by decide),
   backoff_sequence_claim.2.2.2.2.2 6⟩

/-- C8: sidecar resolution order, first match winning.  A non-empty override
environment variable yields that executable path with empty arguments; with
the override unset or blank, development mode yields the language interpreter
on the backend entry-point script under the workspace root (the working
directory when it holds a `backend` subdirectory, else its parent when that
does, else the working directory); packaged mode probes the platform binary
name next to the current executable, then in the resource directory's
`binaries` subfolder, then directly in the resource directory, taking the
first candidate that exists and failing with the full list of checked
candidates when none does. -/
theorem find_sidecar_path_claim :
    (∀ (env : SidecarEnv) (p : String),
      env.sidecar_override = some p → trimChars p.toList ≠ [] →
      find_sidecar_path env = Except.ok (strToPath (trimChars p.toList), []))
  ∧ (∀ env : SidecarEnv, OverrideMiss env →
      find_sidecar_path env = find_sidecar_no_override env)
  ∧ (∀ env : SidecarEnv, env.debug_mode = true →
      find_sidecar_no_override env = Except.ok (["python"],
        [pathToStr
          (resolve_workspace_root env ++ ["backend", "desktop_server.py"])]))
  ∧ (∀ env : SidecarEnv,
      (env.fs_exists (env.cwd ++ ["backend"]) = true →
        resolve_workspace_root env = env.cwd) ∧
      (env.fs_exists (env.cwd ++ ["backend"]) = false →
        env.fs_exists (env.cwd.dropLast ++ ["backend"]) = true →
        resolve_workspace_root env = env.cwd.dropLast) ∧
      (env.fs_exists (env.cwd ++ ["backend"]) = false →
        env.fs_exists (env.cwd.dropLast ++ ["backend"]) = false →
        resolve_workspace_root env = env.cwd))
  ∧ (∀ (env : SidecarEnv) (d rd : List String),
      env.exe_dir = some d → env.resource_dir = some rd →
      sidecar_candidates env =
        [d ++ [binary_name env.target_windows],
         rd ++ ["binaries", binary_name env.target_windows],
         rd ++ [binary_name env.target_windows]])
  ∧ (∀ (env : SidecarEnv) (pre post : List (List String)) (c : List String),
      env.debug_mode = false →
      sidecar_candidates env = pre ++ c :: post →
      (∀ x ∈ pre, env.fs_exists x = false) →
      env.fs_exists c = true →
      find_sidecar_no_override env = Except.ok (c, []))
  ∧ (∀ env : SidecarEnv, env.debug_mode = false →
      (∀ c ∈ sidecar_candidates env, env.fs_exists c = false) →
      find_sidecar_no_override env =
        Except.error (sidecar_candidates env)) := by
  refine ⟨?_, ?_, ?_, ?_, ?_, ?_, ?_⟩
  · intro env p hov htrim
    unfold find_sidecar_path
    rw [hov]
    show (if trimChars p.toList ≠ [] then
        Except.ok (strToPath (trimChars p.toList), [])
      else find_sidecar_no_override env) =
      Except.ok (strToPath (trimChars p.toList), [])
    rw [if_pos htrim]
  · intro env hmiss
    rcases hmiss with hnone | ⟨p, hov, htrim⟩
    · unfold find_sidecar_path
      rw [hnone]
    · unfold find_sidecar_path
      rw [hov]
      show (if trimChars p.toList ≠ [] then
          Except.ok (strToPath (trimChars p.toList), [])
        else find_sidecar_no_override env) = find_sidecar_no_override env
      rw [if_neg (fun hne => hne htrim)]
  · intro env hdbg
    simp [find_sidecar_no_override, hdbg]
  · intro env
    refine ⟨?_, ?_, ?_⟩
    · intro h1
      simp [resolve_workspace_root, h1]
    · intro h1 h2
      simp [resolve_workspace_root, h1, h2]
    · intro h1 h2
      simp [resolve_workspace_root, h1, h2]
  · intro env d rd hd hrd
    simp [sidecar_candidates, hd, hrd]
  · intro env pre post c hdbg hcand hpre hc
    have hfind : (sidecar_candidates env).find? env.fs_exists = some c := by
      rw [hcand]
      exact list_find_first env.fs_exists pre post c hpre hc
    simp [find_sidecar_no_override, hdbg, hfind]
  · intro env hdbg hnone
    have hfind : (sidecar_candidates env).find? env.fs_exists = none := by
      rw [List.find?_eq_none]
      intro x hx
      simp [hnone x hx]
    simp [find_sidecar_no_override, hdbg, hfind]

/-- Witness for C8: a concrete environment where the override wins, and a
concrete packaged environment where every candidate is missing. -/
theorem find_sidecar_path_claim_witness :
    find_sidecar_path
        { sidecar_override := some " /opt/fm/backend-bin "
          debug_mode := false
          cwd := ["home", "user"]
          fs_exists := fun _ => false
          exe_dir := none
          resource_dir := none
          target_windows := false } =
      Except.ok (["", "opt", "fm", "backend-bin"], []) ∧
    find_sidecar_no_override
        { sidecar_override := none
          debug_mode := false
          cwd := ["home", "user"]
          fs_exists := fun _ => false
          exe_dir := some ["app"]
          resource_dir := some ["res"]
          target_windows := false } =
      Except.error [["app", "filesmind-backend"],
        ["res", "binaries", "filesmind-backend"],
        ["res", "filesmind-backend"]] := by
  constructor
  · have h := find_sidecar_path_claim.1
      { sidecar_override := some " /opt/fm/backend-bin "
        debug_mode := false
        cwd := ["home", "user"]
        fs_exists := fun _ => false
        exe_dir := none
        resource_dir := none
        target_windows := false } " /opt/fm/backend-bin " rfl (by decide)
    rw [h]
    rfl
  · have h := find_sidecar_path_claim.2.2.2.2.2.2
      { sidecar_override := none
        debug_mode := false
        cwd := ["home", "user"]
        fs_exists := fun _ => false
        exe_dir := some ["app"]
        resource_dir := some ["res"]
        target_windows := false } rfl (fun c _ => rfl)
    rw [h]
    rfl

end FilesMind
